import Mathlib

/-!
Verification of the `mmio_htif` driver (`src/lib.rs`), a RISC-V Spike
HTIF console driver.  The driver talks to two memory-mapped 64-bit
registers, `tohost` and `fromhost`.  We embed the register file as an
explicit state record, and every register access performed by the code
as an event in a trace, so that "exactly one write", "pacing reads",
and ordering claims can be stated.  Volatile reads of `tohost` (the
pacing loop) may return anything the simulator chooses, so their
results are supplied by an oracle `env : Nat → Nat`; independence of
the driver's behaviour from that oracle is what "results are
discarded" means.  All 64-bit machine words are `Nat`s; no arithmetic
in the driver can overflow 64 bits (only `|||`, `&&&`, `<<<` of
in-range constants occur), so no `% 2^64` reduction is needed.
-/

namespace MmioHtif

/-- The two 64-bit mailbox registers (`static mut tohost`, `static fromhost`). -/
structure HTIFState where
  tohost : Nat
  fromhost : Nat
deriving Repr, DecidableEq

/-- One volatile register access performed by the driver, with the
64-bit value written or read. -/
inductive Event where
  | writeToHost (val : Nat)
  | readToHost (val : Nat)
  | readFromHost (val : Nat)
deriving Repr, DecidableEq

/-- Rust: `const REG_TOTAL_SIZE: usize = 2 * 8;` -/
def REG_TOTAL_SIZE : Nat := 2 * 8

/-- Rust: `const DEVICE_SHIFT: u64 = 56;` -/
def DEVICE_SHIFT : Nat := 56

/-- Rust: `const DEVICE_CHARIO: u64 = 1;` -/
def DEVICE_CHARIO : Nat := 1

/-- Rust: `const COMMAND_SHIFT: u64 = 48;` -/
def COMMAND_SHIFT : Nat := 48

/-- Rust: `const COMMAND_READ_CHAR: u64 = 0;` -/
def COMMAND_READ_CHAR : Nat := 0

/-- Rust: `const COMMAND_WRITE_CHAR: u64 = 1;` -/
def COMMAND_WRITE_CHAR : Nat := 1

/-- Rust: `pub enum Fault { Success }` — the closed error enumeration. -/
inductive Fault where
  | Success
deriving Repr, DecidableEq

/-- Rust: `pub struct HTIF {}` — the fieldless controller handle. -/
structure HTIF
deriving Repr, DecidableEq

/-- Rust: `pub fn new() -> Result<Self, Fault> { Ok( HTIF {} ) }` -/
def HTIF.new : Except Fault HTIF := Except.ok {}

/-- Rust: `pub fn size(&self) -> usize { REG_TOTAL_SIZE }` — pure, no
register access, hence no state argument and no trace. -/
def HTIF.size (_ : HTIF) : Nat := REG_TOTAL_SIZE

/-- Rust: `fn write_to_host(&self, val: u64)`: one volatile write of `val`
to `tohost`, then a loop of 100 volatile reads of `tohost` whose
results (given by the oracle `env`) are dropped.  Returns the new
register state and the access trace in program order. -/
def HTIF.write_to_host (_ : HTIF) (env : Nat → Nat) (s : HTIFState) (val : Nat) :
    HTIFState × List Event :=
  ({ s with tohost := val },
    Event.writeToHost val :: (List.range 100).map (fun i => Event.readToHost (env i)))

/-- Rust: `fn read_from_host(&self) -> u64`: one volatile read of `fromhost`,
returned verbatim. -/
def HTIF.read_from_host (_ : HTIF) (s : HTIFState) : Nat × List Event :=
  (s.fromhost, [Event.readFromHost s.fromhost])

/-- Rust: `pub fn send_byte(&self, to_send: u8) -> Result<(), Fault>`.
`to_send : Nat` models the `u8` argument (callers pass values < 256;
the code masks with `0xff` in any case, exactly as written). -/
def HTIF.send_byte (h : HTIF) (env : Nat → Nat) (s : HTIFState) (to_send : Nat) :
    HTIFState × List Event × Except Fault Unit :=
  let device := DEVICE_CHARIO <<< DEVICE_SHIFT
  let command := COMMAND_WRITE_CHAR <<< COMMAND_SHIFT
  let byte := to_send &&& 0xff
  let res := h.write_to_host env s (device ||| command ||| byte)
  (res.1, res.2, Except.ok ())

/-- Rust: `pub fn read_byte(&self) -> Result<u8, Fault>`. -/
def HTIF.read_byte (h : HTIF) (env : Nat → Nat) (s : HTIFState) :
    HTIFState × List Event × Except Fault Nat :=
  let device := DEVICE_CHARIO <<< DEVICE_SHIFT
  let command := COMMAND_READ_CHAR <<< COMMAND_SHIFT
  let res := h.write_to_host env s (device ||| command)
  let rd := h.read_from_host res.1
  (res.1, res.2 ++ rd.2, Except.ok (rd.1 &&& 0xff))

/-- Is this event a write to the `ToHost` request register? -/
def Event.isWriteToHost : Event → Bool
  | .writeToHost _ => true
  | _ => false

/-- Is this event a read of the `FromHost` response register? -/
def Event.isReadFromHost : Event → Bool
  | .readFromHost _ => true
  | _ => false

/-- Is this event a (pacing) read of the `ToHost` register? -/
def Event.isReadToHost : Event → Bool
  | .readToHost _ => true
  | _ => false

/-- The sequence of words written to the `ToHost` request register in
a trace, in order. -/
def writtenWords (evs : List Event) : List Nat :=
  evs.filterMap fun e =>
    match e with
    | .writeToHost v => some v
    | _ => none

/-! Helper lemmas shared by the claim theorems. -/

/-- The pacing reads contribute no written words whatever the oracle returns. -/
theorem writtenWords_pacing (env : Nat → Nat) :
    writtenWords ((List.range 100).map (fun i => Event.readToHost (env i))) = [] := by
  rw [writtenWords, List.filterMap_map, List.filterMap_eq_nil_iff]
  intro i _
  rfl

/-- Shape of the word list written by one `write_to_host` call. -/
theorem writtenWords_write_to_host (h : HTIF) (env : Nat → Nat) (s : HTIFState) (val : Nat) :
    writtenWords (h.write_to_host env s val).2 = [val] := by
  have hp := writtenWords_pacing env
  rw [writtenWords] at hp
  rw [HTIF.write_to_host, writtenWords, List.filterMap_cons, hp]

/-- Masking with `0xff` is reduction mod 256. -/
theorem land_255_eq_mod (v : Nat) : v &&& 0xff = v % 256 := by
  simpa using Nat.and_pow_two_sub_one_eq_mod v 8

set_option maxRecDepth 8192 in
/-- The request word that `send_byte` assembles, in additive form: for a
byte `b`, `(1 <<< 56) ||| (1 <<< 48) ||| b` is exactly `2^56 + 2^48 + b`,
so every bit outside the device, command and low-byte fields is zero. -/
theorem send_word_eq (b : Fin 256) :
    (1 <<< 56) ||| (1 <<< 48) ||| b.val = 0x0101000000000000 + b.val := by
  revert b
  decide

set_option maxRecDepth 8192 in
/-- Device field of the `send_byte` request word: bits 63-56 are 1. -/
theorem send_word_device (b : Fin 256) :
    ((1 <<< 56) ||| (1 <<< 48) ||| b.val) >>> 56 = 1 ∧
      (1 <<< 56) ||| (1 <<< 48) ||| b.val < 2 ^ 64 := by
  revert b
  decide

/-- The word list written by one `send_byte` call. -/
theorem writtenWords_send_byte (h : HTIF) (env : Nat → Nat) (s : HTIFState) (b : Nat) :
    writtenWords (h.send_byte env s b).2.1 = [(1 <<< 56) ||| (1 <<< 48) ||| (b &&& 0xff)] := by
  rw [HTIF.send_byte]
  exact writtenWords_write_to_host h env s _

/-- Full access trace of one `read_byte` call: the single request write,
the 100 pacing reads, then the single response read. -/
theorem read_byte_trace (h : HTIF) (env : Nat → Nat) (s : HTIFState) :
    (h.read_byte env s).2.1 =
      Event.writeToHost 0x0100000000000000 ::
        ((List.range 100).map (fun i => Event.readToHost (env i)) ++
          [Event.readFromHost s.fromhost]) := by
  rw [HTIF.read_byte]
  simp [HTIF.write_to_host, HTIF.read_from_host, DEVICE_CHARIO, DEVICE_SHIFT,
    COMMAND_READ_CHAR, COMMAND_SHIFT]

/-! Claim theorems. -/

/-- C1: for every byte value `b < 256`, `send_byte b` issues exactly one
write to the `ToHost` request register, the written word equals
`(1 <<< 56) ||| (1 <<< 48) ||| b`, and that word is
`2^56 + 2^48 + b` — all bits outside the three intended fields zero. -/
theorem send_byte_writes_one_word (h : HTIF) (env : Nat → Nat) (s : HTIFState)
    (b : Nat) (hb : b < 256) :
    writtenWords (h.send_byte env s b).2.1 = [(1 <<< 56) ||| (1 <<< 48) ||| b] ∧
      (1 <<< 56) ||| (1 <<< 48) ||| b = 0x0101000000000000 + b := by
  have hmask : b &&& 0xff = b := by
    rw [land_255_eq_mod]
    exact Nat.mod_eq_of_lt hb
  constructor
  · rw [writtenWords_send_byte, hmask]
  · exact send_word_eq ⟨b, hb⟩

/-- C1 witness: `send_byte 0x41` writes exactly `0x0101000000000041`. -/
theorem send_byte_writes_one_word_witness :
    writtenWords (HTIF.mk.send_byte (fun _ => 0) ⟨0, 0⟩ 0x41).2.1 = [0x0101000000000041] := by
  have hmain := send_byte_writes_one_word HTIF.mk (fun _ => 0) ⟨0, 0⟩ 0x41 (by decide)
  rw [hmain.1, hmain.2]

/-- The word list written by one `read_byte` call: the single request
word `1 <<< 56` (device 1, command 0, payload 0). -/
theorem writtenWords_read_byte (h : HTIF) (env : Nat → Nat) (s : HTIFState) :
    writtenWords (h.read_byte env s).2.1 = [0x0100000000000000] := by
  rw [read_byte_trace, writtenWords, List.filterMap_cons, List.filterMap_append]
  have hp := writtenWords_pacing env
  rw [writtenWords] at hp
  rw [hp]
  rfl

/-- In a trace of the shape `w :: mid ++ [r]` where `w` is not a
`FromHost` read, nothing in `mid` is a `ToHost` write, and `r` is not a
`ToHost` write, every `ToHost` write precedes every `FromHost` read. -/
theorem write_before_readFromHost (w : Event) (mid : List Event) (r : Event)
    (hw0 : w.isReadFromHost = false)
    (hmid : ∀ e ∈ mid, e.isWriteToHost = false)
    (hr0 : r.isWriteToHost = false) :
    ∀ i j (hi : i < (w :: mid ++ [r]).length) (hj : j < (w :: mid ++ [r]).length),
      ((w :: mid ++ [r]).get ⟨i, hi⟩).isWriteToHost = true →
      ((w :: mid ++ [r]).get ⟨j, hj⟩).isReadFromHost = true → i < j := by
  intro i j hi hj hwi hrj
  match j, hj with
  | 0, hj =>
    have hrj0 : w.isReadFromHost = true := hrj
    rw [hw0] at hrj0
    exact absurd hrj0 (by simp)
  | jj + 1, hj =>
    match i, hi with
    | 0, hi => exact Nat.succ_pos jj
    | ii + 1, hi =>
      have hii : ii < (mid ++ [r]).length := Nat.lt_of_succ_lt_succ hi
      have hwi1 : ((mid ++ [r]).get ⟨ii, hii⟩).isWriteToHost = true := hwi
      have hmem : (mid ++ [r]).get ⟨ii, hii⟩ ∈ mid ++ [r] := List.get_mem _ _ hii
      rcases List.mem_append.mp hmem with hm | hs
      · rw [hmid _ hm] at hwi1
        exact absurd hwi1 (by simp)
      · rw [List.mem_singleton.mp hs, hr0] at hwi1
        exact absurd hwi1 (by simp)

/-- C2: whatever 64-bit value `v` the `FromHost` response register holds
when `read_byte` reads it, the call returns exactly `v % 256`; bits 8-63
of the response register cannot affect the returned byte. -/
theorem read_byte_returns_low_byte (h : HTIF) (env : Nat → Nat) (t v : Nat)
    (_hv : v < 2 ^ 64) :
    (h.read_byte env ⟨t, v⟩).2.2 = Except.ok (v % 256) ∧ v % 256 < 256 := by
  have hres : (h.read_byte env ⟨t, v⟩).2.2 = Except.ok (v &&& 0xff) := rfl
  refine ⟨?_, Nat.mod_lt v (by omega)⟩
  rw [hres, land_255_eq_mod]

/-- C2 witness: with the response register holding `0x58`, `read_byte`
returns `0x58` (spec Scenario 2). -/
theorem read_byte_returns_low_byte_witness :
    (HTIF.mk.read_byte (fun _ => 0) ⟨0, 0x58⟩).2.2 = Except.ok 0x58 := by
  have hmain := read_byte_returns_low_byte HTIF.mk (fun _ => 0) 0 0x58 (by norm_num)
  rw [hmain.1]

/-- C3: `read_byte` issues exactly one write to the `ToHost` request
register, of exactly `0x0100000000000000 = 1 <<< 56`, and in its access
trace every `ToHost` write occurs strictly before every `FromHost` read. -/
theorem read_byte_request_word_and_order (h : HTIF) (env : Nat → Nat) (s : HTIFState) :
    writtenWords (h.read_byte env s).2.1 = [1 <<< 56] ∧
      (1 <<< 56 : Nat) = 0x0100000000000000 ∧
      ∀ i j (hi : i < (h.read_byte env s).2.1.length)
        (hj : j < (h.read_byte env s).2.1.length),
        ((h.read_byte env s).2.1.get ⟨i, hi⟩).isWriteToHost = true →
        ((h.read_byte env s).2.1.get ⟨j, hj⟩).isReadFromHost = true → i < j := by
  refine ⟨?_, by decide, ?_⟩
  · rw [writtenWords_read_byte]
    decide
  · rw [read_byte_trace]
    refine write_before_readFromHost _ _ _ rfl ?_ rfl
    intro e he
    rcases List.mem_map.mp he with ⟨k, _, hk⟩
    rw [← hk]
    rfl

/-- C4 counterexample: `send_byte 0xFF` does not write the word
`0x0101FF0000000000` that the spec's Scenario 3 names — the code puts
the byte in bits 7-0, not bits 47-40. -/
theorem send_byte_ff_not_scenario_word :
    writtenWords (HTIF.mk.send_byte (fun _ => 0) ⟨0, 0⟩ 0xFF).2.1 ≠ [0x0101FF0000000000] := by
  rw [writtenWords_send_byte]
  decide

/-- C4 amended: `send_byte 0xFF` writes the request word
`0x01010000000000FF` — payload low byte `0xFF`, all higher payload bits
zero, exactly as the scenario's own gloss demands. -/
theorem send_byte_ff_writes_low_byte (h : HTIF) (env : Nat → Nat) (s : HTIFState) :
    writtenWords (h.send_byte env s 0xFF).2.1 = [0x01010000000000FF] := by
  rw [writtenWords_send_byte]
  decide

/-- Counting the pacing reads: a list of `readToHost` events built by a
map contributes exactly its length. -/
theorem countP_readToHost_map (f : Nat → Nat) (l : List Nat) :
    ((l.map (fun i => Event.readToHost (f i))).countP (fun e => e.isReadToHost)) = l.length := by
  induction l with
  | nil => rfl
  | cons a t ih => simp [List.countP_cons, Event.isReadToHost, ih]

/-- C5: `write_to_host val` performs exactly one write, of `val`, to
`ToHost`, followed by exactly 100 reads of `ToHost`; the values those
reads return (the oracle) influence neither the register state left
behind nor the sequence of written words. -/
theorem write_to_host_trace_and_pacing (h : HTIF) (env envA envB : Nat → Nat)
    (s : HTIFState) (val : Nat) :
    (h.write_to_host env s val).2 =
      Event.writeToHost val :: (List.range 100).map (fun i => Event.readToHost (env i)) ∧
    writtenWords (h.write_to_host env s val).2 = [val] ∧
    ((h.write_to_host env s val).2.countP (fun e => e.isReadToHost)) = 100 ∧
    (h.write_to_host envA s val).1 = (h.write_to_host envB s val).1 ∧
    writtenWords (h.write_to_host envA s val).2 = writtenWords (h.write_to_host envB s val).2 := by
  refine ⟨rfl, writtenWords_write_to_host h env s val, ?_, rfl, ?_⟩
  · rw [HTIF.write_to_host, List.countP_cons, countP_readToHost_map, List.length_range]
    simp [Event.isReadToHost]
  · rw [writtenWords_write_to_host, writtenWords_write_to_host]

/-- C6: every request word the driver writes to `ToHost` — for any byte
given to `send_byte` and for `read_byte` — is a 64-bit word whose device
field (bits 63-56) is 1; no other device number is ever written. -/
theorem device_field_always_one (h : HTIF) (env : Nat → Nat) (s : HTIFState)
    (b : Nat) (hb : b < 256) :
    (∀ w ∈ writtenWords (h.send_byte env s b).2.1, w >>> 56 = 1 ∧ w < 2 ^ 64) ∧
      (∀ w ∈ writtenWords (h.read_byte env s).2.1, w >>> 56 = 1 ∧ w < 2 ^ 64) := by
  constructor
  · intro w hw
    rw [writtenWords_send_byte, List.mem_singleton] at hw
    subst hw
    have hmask : b &&& 0xff = b := by
      rw [land_255_eq_mod]
      exact Nat.mod_eq_of_lt hb
    rw [hmask]
    exact send_word_device ⟨b, hb⟩
  · intro w hw
    rw [writtenWords_read_byte, List.mem_singleton] at hw
    subst hw
    decide

/-- C6 witness: the word `send_byte 0x41` writes has device field 1. -/
theorem device_field_always_one_witness :
    (0x0101000000000041 : Nat) >>> 56 = 1 ∧ (0x0101000000000041 : Nat) < 2 ^ 64 :=
  (device_field_always_one HTIF.mk (fun _ => 0) ⟨0, 0⟩ 0x41 (by decide)).1
    0x0101000000000041
    (by rw [writtenWords_send_byte]; decide)

/-- C7: the error enumeration `Fault` is closed with the single
inhabitant `Success`, and every public operation — `new`, `send_byte`
for every input, `read_byte` in every register state — returns the `Ok`
variant of its `Result`. -/
theorem all_operations_return_success :
    (∀ f : Fault, f = Fault.Success) ∧
      HTIF.new = Except.ok HTIF.mk ∧
      (∀ (h : HTIF) (env : Nat → Nat) (s : HTIFState) (b : Nat),
        (h.send_byte env s b).2.2 = Except.ok ()) ∧
      (∀ (h : HTIF) (env : Nat → Nat) (s : HTIFState),
        (h.read_byte env s).2.2 = Except.ok (s.fromhost &&& 0xff)) := by
  refine ⟨fun f => ?_, rfl, fun h env s b => rfl, fun h env s => rfl⟩
  cases f
  rfl

/-- C8: `new` always succeeds with the (fieldless) handle, and `size` on
any handle is the constant 16; `size` takes no register state and emits
no access events, so it cannot have register side effects. -/
theorem new_succeeds_and_size_is_16 :
    HTIF.new = Except.ok HTIF.mk ∧ REG_TOTAL_SIZE = 16 ∧ ∀ h : HTIF, h.size = 16 :=
  ⟨rfl, rfl, fun _ => rfl⟩

/-- C9: frame property of `send_byte`: its access trace is exactly the
one `ToHost` write followed by the 100 pacing reads of `ToHost`; it
contains no `FromHost` access, and the `FromHost` register value is
unchanged by the call. -/
theorem send_byte_frame (h : HTIF) (env : Nat → Nat) (s : HTIFState) (b : Nat) :
    (h.send_byte env s b).1.fromhost = s.fromhost ∧
      (∀ e ∈ (h.send_byte env s b).2.1, e.isReadFromHost = false) ∧
      (h.send_byte env s b).2.1 =
        Event.writeToHost ((1 <<< 56) ||| (1 <<< 48) ||| (b &&& 0xff)) ::
          (List.range 100).map (fun i => Event.readToHost (env i)) := by
  refine ⟨rfl, ?_, rfl⟩
  intro e he
  have ht : (h.send_byte env s b).2.1 =
      Event.writeToHost ((1 <<< 56) ||| (1 <<< 48) ||| (b &&& 0xff)) ::
        (List.range 100).map (fun i => Event.readToHost (env i)) := rfl
  rw [ht] at he
  rcases List.mem_cons.mp he with he0 | hem
  · rw [he0]
    rfl
  · rcases List.mem_map.mp hem with ⟨k, _, hk⟩
    rw [← hk]
    rfl

/-- C10: two-run determinism and oracle independence: for equal register
states and equal inputs, two runs of `send_byte` (resp. `read_byte`) —
with possibly distinct handles and possibly distinct values returned by
the 100 pacing reads of `ToHost` — leave identical register states,
write identical word sequences, and return identical results. -/
theorem two_run_determinism (h₁ h₂ : HTIF) (env₁ env₂ : Nat → Nat)
    (s : HTIFState) (b : Nat) :
    (h₁.send_byte env₁ s b).1 = (h₂.send_byte env₂ s b).1 ∧
      writtenWords (h₁.send_byte env₁ s b).2.1 = writtenWords (h₂.send_byte env₂ s b).2.1 ∧
      (h₁.send_byte env₁ s b).2.2 = (h₂.send_byte env₂ s b).2.2 ∧
      (h₁.read_byte env₁ s).1 = (h₂.read_byte env₂ s).1 ∧
      writtenWords (h₁.read_byte env₁ s).2.1 = writtenWords (h₂.read_byte env₂ s).2.1 ∧
      (h₁.read_byte env₁ s).2.2 = (h₂.read_byte env₂ s).2.2 := by
  refine ⟨rfl, ?_, rfl, rfl, ?_, rfl⟩
  · rw [writtenWords_send_byte, writtenWords_send_byte]
  · rw [writtenWords_read_byte, writtenWords_read_byte]

end MmioHtif
